import Mathlib

/-!
Verification of the Slide to Glory (Snakes & Ladders) game core:
a shallow embedding of `snake_ladder_core.py` (board model, turn state
machine, remote-message application) and `websocket_server.py` (session
registry, join/create/relay/teardown), with theorems about the claims of
the specification.
-/

namespace SlideToGlory

/-- Snake head → tail table, from `snake_ladder_core.py` line 15. -/
def SNAKES : List (Int × Int) := [(98, 78), (95, 56), (87, 24), (62, 18), (54, 34), (16, 6)]

/-- Ladder bottom → top table, from `snake_ladder_core.py` line 16. -/
def LADDERS : List (Int × Int) := [(1, 38), (4, 14), (9, 21), (28, 84), (36, 44), (51, 67), (71, 91), (80, 100)]

/-- Landing resolution: the final resting square after a raw landing, applying
the ladder table first and otherwise the snake table, as the branch structure
of `animate_token_move` does (LADDERS checked before SNAKES). -/
def resolveLanding (s : Int) : Int :=
  match LADDERS.lookup s with
  | some top => top
  | none =>
    match SNAKES.lookup s with
    | some tail => tail
    | none => s

inductive Mode
  | solo
  | multiplayer
deriving DecidableEq

/-- Game-action wire messages (the `data` payloads produced and consumed by
`send_network_message` / `_process_single_message`). -/
inductive GameMsg
  | diceRoll (player : Nat) (value : Int)
  | moveComplete (player : Nat) (position : Int) (moveCount : Nat)
  | turnChange (currentPlayer : Nat)
  | reset
  | gameEnd (winner : Nat)
deriving DecidableEq

/-- Per-client turn state, mirroring the mutable fields of `SnakeLadderGame`.
`winner` records the index passed to `handle_game_end` (the announced winner);
the Python object carries it only in the announcement call, not as a field. -/
structure GameState where
  positions : Int × Int
  diceValue : Int
  currentPlayer : Nat
  myPlayerIndex : Nat
  myTurn : Bool
  gameOver : Bool
  moving : Bool
  diceRolling : Bool
  moveCount : Nat × Nat
  mode : Mode
  hasConnection : Bool
  winner : Option Nat
deriving DecidableEq

/-- Read the two-element `positions` / index by player 0 or 1. -/
def getIdx (pr : Int × Int) (i : Nat) : Int :=
  if i = 0 then pr.1 else pr.2

def setIdx (pr : Int × Int) (i : Nat) (x : Int) : Int × Int :=
  if i = 0 then (x, pr.2) else (pr.1, x)

def getCount (pr : Nat × Nat) (i : Nat) : Nat :=
  if i = 0 then pr.1 else pr.2

def setCount (pr : Nat × Nat) (i : Nat) (x : Nat) : Nat × Nat :=
  if i = 0 then (x, pr.2) else (pr.1, x)

/-- Python guard `self.mode == "multiplayer" and self.websocket_connection`
on every `send_network_message` call site. -/
def sendsEnabled (st : GameState) : Bool :=
  st.mode == Mode.multiplayer && st.hasConnection

/-- `next_turn`: flips the current player, clears the dice, refreshes
`my_turn` in multiplayer, and sends a `turn_change` message. -/
def nextTurn (st : GameState) : GameState × List GameMsg :=
  let cp := 1 - st.currentPlayer
  let st' := { st with
    currentPlayer := cp
    diceValue := 0
    myTurn := if st.mode == Mode.multiplayer then cp == st.myPlayerIndex else st.myTurn }
  (st', if sendsEnabled st' then [GameMsg.turnChange cp] else [])

/-- `handle_game_end`: marks the game over, records the announced winner, and
sends a `game_end` message. -/
def handleGameEnd (w : Nat) (st : GameState) : GameState × List GameMsg :=
  let st' := { st with gameOver := true, winner := some w }
  (st', if sendsEnabled st' then [GameMsg.gameEnd w] else [])

/-- `complete_move`: clears the moving flag and the dice, sends
`move_complete` for a local move, then either ends the game (final
position ≥ 100) or passes the turn (local move) / refreshes the UI
(opponent move). -/
def completeMove (pIdx : Nat) (finalPos : Int) (isOpp : Bool) (st : GameState) :
    GameState × List GameMsg :=
  let st1 := { st with moving := false, diceValue := 0 }
  let sent : List GameMsg :=
    if sendsEnabled st1 && !isOpp then
      [GameMsg.moveComplete pIdx finalPos (getCount st1.moveCount pIdx)]
    else []
  if 100 ≤ finalPos then
    let r := handleGameEnd pIdx st1
    (r.1, sent ++ r.2)
  else if !isOpp then
    let r := nextTurn st1
    (r.1, sent ++ r.2)
  else (st1, sent)

/-- `handle_special_move`: jump to the snake tail / ladder top, then complete. -/
def handleSpecialMove (pIdx : Nat) (newPos : Int) (isOpp : Bool) (st : GameState) :
    GameState × List GameMsg :=
  completeMove pIdx newPos isOpp { st with positions := setIdx st.positions pIdx newPos }

/-- Net effect of the `animate_token_move` recursion: the step loop runs only
when `startPos < endPos` (each step writes `start + step + 1`, ending at
`endPos`); afterwards the landing square is looked up in LADDERS, then in
SNAKES, and otherwise completes at `endPos` without touching `positions`. -/
def animateTokenMove (pIdx : Nat) (startPos endPos : Int) (isOpp : Bool) (st : GameState) :
    GameState × List GameMsg :=
  let st1 :=
    if startPos < endPos then { st with positions := setIdx st.positions pIdx endPos } else st
  match LADDERS.lookup endPos with
  | some top => handleSpecialMove pIdx top isOpp st1
  | none =>
    match SNAKES.lookup endPos with
    | some tail => handleSpecialMove pIdx tail isOpp st1
    | none => completeMove pIdx endPos isOpp st1

/-- `try_move_token`: a local move attempt, guards included, through the
whole animation cascade to its resting state. -/
def tryMoveToken (pIdx : Nat) (st : GameState) : GameState × List GameMsg :=
  if st.gameOver || st.moving || st.diceRolling || st.diceValue == 0 then (st, [])
  else if pIdx != st.currentPlayer then (st, [])
  else if st.mode == Mode.multiplayer && !st.myTurn then (st, [])
  else
    let currentPos := getIdx st.positions pIdx
    let newPos := currentPos + st.diceValue
    if newPos > 100 then nextTurn st
    else
      let st1 := { st with
        moving := true
        moveCount := setCount st.moveCount pIdx (getCount st.moveCount pIdx + 1) }
      animateTokenMove pIdx currentPos newPos false st1

/-- `roll_dice` followed by the completed `animate_dice_roll`: the dice
outcome `d` is a parameter standing for `random.randint(1, 6)`. Note the
guards: game over, mid-move, mid-roll, turn ownership — but no check that a
previous roll is still unconsumed (`dice_value != 0` is not tested here). -/
def rollDice (d : Int) (st : GameState) : GameState × List GameMsg :=
  if st.gameOver || st.moving || st.diceRolling then (st, [])
  else if st.mode == Mode.multiplayer && !st.myTurn then (st, [])
  else if st.mode == Mode.solo && st.currentPlayer != 0 then (st, [])
  else
    let st1 := { st with diceValue := d, diceRolling := false }
    (st1, if sendsEnabled st1 then [GameMsg.diceRoll st.currentPlayer d] else [])

/-- `reset_game`: back to the initial configuration (and a `reset` send). -/
def resetGame (st : GameState) : GameState × List GameMsg :=
  let st' := { st with
    positions := ((0 : Int), (0 : Int))
    diceValue := 0
    currentPlayer := 0
    gameOver := false
    moving := false
    diceRolling := false
    moveCount := ((0 : Nat), (0 : Nat))
    myTurn := if st.mode == Mode.multiplayer then (0 == st.myPlayerIndex) else st.myTurn }
  (st', if sendsEnabled st' then [GameMsg.reset] else [])

/-- `_process_single_message`: application of one remote game action. -/
def processSingleMessage (msg : GameMsg) (st : GameState) : GameState × List GameMsg :=
  match msg with
  | GameMsg.diceRoll player value =>
    if player != st.myPlayerIndex then
      ({ st with diceValue := value, diceRolling := false }, [])
    else (st, [])
  | GameMsg.moveComplete player position mc =>
    if player != st.myPlayerIndex then
      let oldPos := getIdx st.positions player
      let st1 := { st with moveCount := setCount st.moveCount player mc }
      if oldPos != position then
        animateTokenMove player oldPos position true { st1 with moving := true }
      else
        ({ st1 with positions := setIdx st1.positions player position }, [])
    else (st, [])
  | GameMsg.turnChange cp =>
    if cp != st.currentPlayer then
      ({ st with
          currentPlayer := cp
          myTurn := cp == st.myPlayerIndex
          diceValue := 0 }, [])
    else (st, [])
  | GameMsg.reset => resetGame st
  | GameMsg.gameEnd w => if !st.gameOver then handleGameEnd w st else (st, [])

/-- Python `str.upper()` restricted to what the server feeds it (uuid hex
prefixes and typed invite codes): uppercase every character. -/
def upperString (s : String) : String := ⟨s.data.map Char.toUpper⟩

inductive SessState
  | waiting
  | ready
deriving DecidableEq

/-- One entry of the server's `sessions` dict. Connections are abstracted
as numeric ids; player info as (name, avatar) pairs. -/
structure Session where
  host : Nat
  guest : Option Nat
  hostInfo : String × String
  guestInfo : Option (String × String)
  gameState : SessState
deriving DecidableEq

/-- Messages the server sends to a connection. -/
inductive ServerMsg
  | sessionCreated (sessionId inviteCode : String)
  | playerJoined (guestInfo : String × String)
  | sessionJoined (sessionId : String) (hostInfo : String × String)
  | gameReady (sessionId : String)
  | gameMessage (payload : GameMsg)
  | playerDisconnected (sessionId : String)
  | errorMsg (message : String)
  | pong
deriving DecidableEq

/-- `GameServer` state: the `sessions` dict (insertion-ordered, as a Python
dict is, hence an association list) and the set of registered clients. -/
structure ServerState where
  sessions : List (String × Session)
  clients : List Nat
deriving DecidableEq

/-- Python dict assignment `self.sessions[session_id] = ...`: replace in
place if the key exists, append otherwise. -/
def insertSession (sid : String) (s : Session) : List (String × Session) → List (String × Session)
  | [] => [(sid, s)]
  | p :: rest => if p.1 == sid then (sid, s) :: rest else p :: insertSession sid s rest

/-- The session record built by `create_session`. -/
def freshSession (conn : Nat) (name avatar : String) : Session :=
  { host := conn
    guest := none
    hostInfo := (name, avatar)
    guestInfo := none
    gameState := SessState.waiting }

/-- `create_session`: the fresh uuid string is a parameter `sid`; the invite
code is its first 8 characters uppercased. -/
def createSession (sid : String) (conn : Nat) (name avatar : String) (sv : ServerState) :
    ServerState × List (Nat × ServerMsg) :=
  ({ sv with sessions := insertSession sid (freshSession conn name avatar) sv.sessions },
   [(conn, ServerMsg.sessionCreated sid (upperString (sid.take 8)))])

/-- Whether a session involves a given connection (used by teardown). -/
def involves (conn : Nat) (p : String × Session) : Bool :=
  p.2.host == conn || p.2.guest == some conn

/-- `unregister_client`: discard the connection, notify the surviving peer of
every session it belonged to (one `player_disconnected` per such session,
sent only if the peer is still registered), and delete those sessions. -/
def unregisterClient (conn : Nat) (sv : ServerState) : ServerState × List (Nat × ServerMsg) :=
  let clients' := sv.clients.erase conn
  let affected := sv.sessions.filter (involves conn)
  let msgs := affected.filterMap fun p =>
    match (if p.2.host == conn then p.2.guest else some p.2.host) with
    | some o => if clients'.contains o then some (o, ServerMsg.playerDisconnected p.1) else none
    | none => none
  ({ sessions := sv.sessions.filter fun p => !(involves conn p), clients := clients' }, msgs)

/-- `join_session`: look the invite code up by 8-character uppercased prefix
(first match in dict order); error if absent or if the guest slot is taken;
otherwise attach the guest, flip the state to ready, and notify both sides. -/
def joinSession (conn : Nat) (inviteCodeRaw name avatar : String) (sv : ServerState) :
    ServerState × List (Nat × ServerMsg) :=
  let invite := upperString inviteCodeRaw
  match sv.sessions.find? fun p => upperString (p.1.take 8) == invite with
  | none => (sv, [(conn, ServerMsg.errorMsg "Session not found")])
  | some (sid, s) =>
    -- `if not session_id`: an empty-string key is falsy in Python
    if sid == "" then (sv, [(conn, ServerMsg.errorMsg "Session not found")])
    else if s.guest.isSome then (sv, [(conn, ServerMsg.errorMsg "Session is full")])
    else
      let gi := (name, avatar)
      let s' := { s with guest := some conn, guestInfo := some gi, gameState := SessState.ready }
      let msgs :=
        (if sv.clients.contains s.host then [(s.host, ServerMsg.playerJoined gi)] else [])
          ++ [(conn, ServerMsg.sessionJoined sid s.hostInfo)]
          ++ (if sv.clients.contains s.host then [(s.host, ServerMsg.gameReady sid)] else [])
          ++ (if sv.clients.contains conn then [(conn, ServerMsg.gameReady sid)] else [])
      ({ sv with sessions := insertSession sid s' sv.sessions }, msgs)

/-- `relay_game_message`: find the session, pick the counterpart connection,
and forward the payload unmodified inside a `game_message` envelope (dropped
silently if the target is gone). -/
def relayGameMessage (conn : Nat) (sid : String) (m : GameMsg) (sv : ServerState) :
    ServerState × List (Nat × ServerMsg) :=
  match sv.sessions.lookup sid with
  | none => (sv, [])
  | some s =>
    let target : Option Nat :=
      if conn == s.host && s.guest.isSome then s.guest
      else if s.guest == some conn then some s.host
      else none
    match target with
    | none => (sv, [])
    | some t =>
      if sv.clients.contains t then (sv, [(t, ServerMsg.gameMessage m)]) else (sv, [])

/-! Concrete states used as witnesses and counterexamples. -/

/-- A multiplayer host mid-game: their turn, dice already rolled. -/
def baseState : GameState :=
  { positions := (15, 0), diceValue := 1, currentPlayer := 0, myPlayerIndex := 0,
    myTurn := true, gameOver := false, moving := false, diceRolling := false,
    moveCount := (0, 0), mode := Mode.multiplayer, hasConnection := true, winner := none }

/-- Witness state for C1: player 0 at 97 with a rolled 5 (overshoot). -/
def stC1 : GameState := { baseState with positions := (97, 50), diceValue := 5, moveCount := (3, 2) }

/-- Witness state for C2: player 0 at 76 with a rolled 4 (76 + 4 = 80, ladder to 100). -/
def stC2 : GameState := { baseState with positions := (76, 0), diceValue := 4 }

/-- Guest-side peer state mirroring `baseState` (local player is index 1). -/
def peerState : GameState := { baseState with myPlayerIndex := 1, myTurn := false }

/-- Peer state with both tokens at the start. -/
def peerAtStart : GameState := { peerState with positions := (0, 0), diceValue := 0 }

/-- A multiplayer host whose turn it is, before any roll. -/
def stBeforeRoll : GameState := { baseState with diceValue := 0 }

/-- A ready session (host connection 1, guest connection 2). -/
def readySession : Session :=
  { host := 1, guest := some 2, hostInfo := ("Alice", "🙂"),
    guestInfo := some ("Bob", "😎"), gameState := SessState.ready }

/-- A registry holding one ready session known to connections 1 and 2. -/
def readyServer : ServerState := { sessions := [("abc12345", readySession)], clients := [1, 2] }

/-- An empty registry knowing one connection. -/
def emptyServer : ServerState := { sessions := [], clients := [1] }

/-! Helper lemmas. -/

theorem getIdx_setIdx_same (pr : Int × Int) (i : Nat) (x : Int) :
    getIdx (setIdx pr i x) i = x := by
  by_cases h : i = 0 <;> simp [getIdx, setIdx, h]

theorem setIdx_setIdx (pr : Int × Int) (i : Nat) (x y : Int) :
    setIdx (setIdx pr i x) i y = setIdx pr i y := by
  by_cases h : i = 0 <;> simp [setIdx, h]

theorem getCount_setCount_same (pr : Nat × Nat) (i : Nat) (x : Nat) :
    getCount (setCount pr i x) i = x := by
  by_cases h : i = 0 <;> simp [getCount, setCount, h]

theorem completeMove_fst_moveCount (pIdx : Nat) (finalPos : Int) (isOpp : Bool) (st : GameState) :
    ((completeMove pIdx finalPos isOpp st).1).moveCount = st.moveCount := by
  unfold completeMove handleGameEnd nextTurn
  split
  · rfl
  · split <;> rfl

theorem completeMove_fst_positions (pIdx : Nat) (finalPos : Int) (isOpp : Bool) (st : GameState) :
    ((completeMove pIdx finalPos isOpp st).1).positions = st.positions := by
  unfold completeMove handleGameEnd nextTurn
  split
  · rfl
  · split <;> rfl

theorem completeMove_ge100 (pIdx : Nat) (finalPos : Int) (isOpp : Bool) (st : GameState)
    (h : (100 : Int) ≤ finalPos) :
    ((completeMove pIdx finalPos isOpp st).1).gameOver = true ∧
    ((completeMove pIdx finalPos isOpp st).1).winner = some pIdx := by
  unfold completeMove handleGameEnd
  simp [h]

/-- The whole animation cascade, when the step loop actually runs
(`startPos < endPos`), is: write the resolved landing square and complete. -/
theorem animateTokenMove_eq (pIdx : Nat) (startPos endPos : Int) (isOpp : Bool) (st : GameState)
    (h : startPos < endPos) :
    animateTokenMove pIdx startPos endPos isOpp st =
      completeMove pIdx (resolveLanding endPos) isOpp
        { st with positions := setIdx st.positions pIdx (resolveLanding endPos) } := by
  unfold animateTokenMove handleSpecialMove resolveLanding
  cases h1 : LADDERS.lookup endPos with
  | some top => simp [h, h1, setIdx_setIdx]
  | none =>
    cases h2 : SNAKES.lookup endPos with
    | some tail => simp [h, h1, h2, setIdx_setIdx]
    | none => simp [h, h1, h2]

/-- A legal local move attempt reduces to the overshoot test. -/
theorem tryMoveToken_legal (pIdx : Nat) (st : GameState)
    (hgo : st.gameOver = false) (hmv : st.moving = false) (hdr : st.diceRolling = false)
    (hd : st.diceValue ≠ 0) (hcp : pIdx = st.currentPlayer)
    (hmt : st.mode = Mode.multiplayer → st.myTurn = true) :
    tryMoveToken pIdx st =
      (if getIdx st.positions pIdx + st.diceValue > 100 then nextTurn st
       else
         animateTokenMove pIdx (getIdx st.positions pIdx)
           (getIdx st.positions pIdx + st.diceValue) false
           { st with
             moving := true
             moveCount := setCount st.moveCount pIdx (getCount st.moveCount pIdx + 1) }) := by
  unfold tryMoveToken
  have h1 : (st.gameOver || st.moving || st.diceRolling || st.diceValue == 0) = false := by
    simp [hgo, hmv, hdr, hd]
  have h2 : (pIdx != st.currentPlayer) = false := by simp [hcp]
  have h3 : (st.mode == Mode.multiplayer && !st.myTurn) = false := by
    cases hm : st.mode with
    | solo => simp [hm]
    | multiplayer => simp [hm, hmt hm]
  simp only [h1, h2, h3, Bool.false_eq_true, if_false]

/-- Claim C1: for a legal local move attempt with position p in [0,100] and
dice d in [1,6], the move overshoots exactly when p + d > 100; on overshoot
no position changes, the mover's move count is not incremented, the dice is
cleared to 0, and the turn passes to the other player. -/
theorem tryMoveToken_overshoot_iff (st : GameState) (pIdx : Nat) (d : Int)
    (hgo : st.gameOver = false) (hmv : st.moving = false) (hdr : st.diceRolling = false)
    (hd : st.diceValue = d) (hd1 : 1 ≤ d) (hd6 : d ≤ 6)
    (hcp : pIdx = st.currentPlayer)
    (hmt : st.mode = Mode.multiplayer → st.myTurn = true)
    (hp0 : 0 ≤ getIdx st.positions pIdx) (hp100 : getIdx st.positions pIdx ≤ 100) :
    (getIdx st.positions pIdx + d > 100 →
      (tryMoveToken pIdx st).1.positions = st.positions ∧
      (tryMoveToken pIdx st).1.moveCount = st.moveCount ∧
      (tryMoveToken pIdx st).1.diceValue = 0 ∧
      (tryMoveToken pIdx st).1.currentPlayer = 1 - st.currentPlayer) ∧
    (getIdx st.positions pIdx + d ≤ 100 →
      getCount (tryMoveToken pIdx st).1.moveCount pIdx = getCount st.moveCount pIdx + 1) := by
  subst hd
  rw [tryMoveToken_legal pIdx st hgo hmv hdr (by omega) hcp hmt]
  constructor
  · intro hover
    rw [if_pos hover]
    exact ⟨rfl, rfl, rfl, rfl⟩
  · intro hle
    rw [if_neg (by omega)]
    rw [animateTokenMove_eq pIdx _ _ false _ (by omega)]
    rw [completeMove_fst_moveCount]
    exact getCount_setCount_same st.moveCount pIdx _

/-- Claim C1 witness: position 97, dice 5 overshoots (102 > 100). -/
theorem tryMoveToken_overshoot_iff_witness :
    ((getIdx stC1.positions 0 + 5 > 100 →
      (tryMoveToken 0 stC1).1.positions = stC1.positions ∧
      (tryMoveToken 0 stC1).1.moveCount = stC1.moveCount ∧
      (tryMoveToken 0 stC1).1.diceValue = 0 ∧
      (tryMoveToken 0 stC1).1.currentPlayer = 1 - stC1.currentPlayer) ∧
     (getIdx stC1.positions 0 + 5 ≤ 100 →
      getCount (tryMoveToken 0 stC1).1.moveCount 0 = getCount stC1.moveCount 0 + 1)) :=
  tryMoveToken_overshoot_iff stC1 0 5 rfl rfl rfl rfl (by decide) (by decide) rfl
    (fun _ => rfl) (by decide) (by decide)

/-- Claim C2: a legal local move whose resolved landing is exactly 100 ends
the game with the mover declared the winner (and the mover resting on 100). -/
theorem move_landing_100_wins (st : GameState) (pIdx : Nat) (d : Int)
    (hgo : st.gameOver = false) (hmv : st.moving = false) (hdr : st.diceRolling = false)
    (hd : st.diceValue = d) (hd1 : 1 ≤ d) (hd6 : d ≤ 6)
    (hcp : pIdx = st.currentPlayer)
    (hmt : st.mode = Mode.multiplayer → st.myTurn = true)
    (hle : getIdx st.positions pIdx + d ≤ 100)
    (hland : resolveLanding (getIdx st.positions pIdx + d) = 100) :
    (tryMoveToken pIdx st).1.gameOver = true ∧
    (tryMoveToken pIdx st).1.winner = some pIdx ∧
    getIdx (tryMoveToken pIdx st).1.positions pIdx = 100 := by
  subst hd
  rw [tryMoveToken_legal pIdx st hgo hmv hdr (by omega) hcp hmt]
  rw [if_neg (by omega)]
  rw [animateTokenMove_eq pIdx _ _ false _ (by omega)]
  rw [hland]
  refine ⟨(completeMove_ge100 pIdx 100 false _ (by omega)).1,
          (completeMove_ge100 pIdx 100 false _ (by omega)).2, ?_⟩
  rw [completeMove_fst_positions]
  exact getIdx_setIdx_same _ _ _

/-- Claim C2 witness: from 76 with a rolled 4, the raw landing 80 takes the
ladder to 100 and the mover wins. -/
theorem move_landing_100_wins_witness :
    (tryMoveToken 0 stC2).1.gameOver = true ∧
    (tryMoveToken 0 stC2).1.winner = some 0 ∧
    getIdx (tryMoveToken 0 stC2).1.positions 0 = 100 :=
  move_landing_100_wins stC2 0 4 rfl rfl rfl rfl (by decide) (by decide) rfl
    (fun _ => rfl) (by decide) (by decide)

/-- Claim C3: each landing square resolves through at most one snake or
ladder transition: a move's resting square is `resolveLanding` of the raw
landing; on squares 1–100 the resolution returns the ladder top for a ladder
bottom, the snake tail for a snake head, and the square itself otherwise; it
is idempotent (transitions never chain); and no square is simultaneously a
ladder bottom and a snake head. -/
theorem landing_resolution_single :
    (∀ (pIdx : Nat) (isOpp : Bool) (st : GameState) (startPos endPos : Int),
      startPos < endPos →
      getIdx ((animateTokenMove pIdx startPos endPos isOpp st).1).positions pIdx =
        resolveLanding endPos) ∧
    (∀ s : Int, 1 ≤ s → s ≤ 100 →
      ((LADDERS.lookup s).isSome = true → resolveLanding s = (LADDERS.lookup s).getD 0) ∧
      (LADDERS.lookup s = none → (SNAKES.lookup s).isSome = true →
        resolveLanding s = (SNAKES.lookup s).getD 0) ∧
      (LADDERS.lookup s = none → SNAKES.lookup s = none → resolveLanding s = s) ∧
      resolveLanding (resolveLanding s) = resolveLanding s ∧
      ¬((LADDERS.lookup s).isSome = true ∧ (SNAKES.lookup s).isSome = true)) := by
  constructor
  · intro pIdx isOpp st startPos endPos h
    rw [animateTokenMove_eq pIdx startPos endPos isOpp st h]
    rw [completeMove_fst_positions]
    exact getIdx_setIdx_same _ _ _
  · intro s h1 h2
    interval_cases s <;> exact (by decide)

/-- Claim C3 witness: a move landing raw on 4 rests on the resolution 14;
square 16 (a snake head) resolves idempotently. -/
theorem landing_resolution_single_witness :
    getIdx ((animateTokenMove 0 0 4 false peerAtStart).1).positions 0 = resolveLanding 4 ∧
    resolveLanding (resolveLanding 16) = resolveLanding 16 :=
  ⟨landing_resolution_single.1 0 false peerAtStart 0 4 (by decide),
   (landing_resolution_single.2 16 (by decide) (by decide)).2.2.2.1⟩

/-- Claim C8: a remote `dice_roll` or `move_complete` whose player field is
the local player's own index is ignored: the whole state is unchanged and
nothing is sent. -/
theorem remote_self_action_ignored :
    ∀ (st : GameState) (v P : Int) (mc : Nat),
      processSingleMessage (GameMsg.diceRoll st.myPlayerIndex v) st = (st, []) ∧
      processSingleMessage (GameMsg.moveComplete st.myPlayerIndex P mc) st = (st, []) := by
  intro st v P mc
  constructor <;> simp [processSingleMessage]

theorem lookup_eq_none (l : List (Int × Int)) (s : Int) (h : ∀ p ∈ l, s ≠ p.1) :
    l.lookup s = none := by
  induction l with
  | nil => rfl
  | cons p t ih =>
    obtain ⟨k, b⟩ := p
    have hp : (s == k) = false := beq_eq_false_iff_ne.mpr (h (k, b) (by simp))
    simp only [List.lookup, hp]
    exact ih fun q hq => h q (by simp [hq])

theorem LADDERS_lookup_big (s : Int) (hbig : 99 ≤ s) : LADDERS.lookup s = none := by
  refine lookup_eq_none LADDERS s fun p hp => ?_
  fin_cases hp <;> omega

theorem SNAKES_lookup_big (s : Int) (hbig : 99 ≤ s) : SNAKES.lookup s = none := by
  refine lookup_eq_none SNAKES s fun p hp => ?_
  fin_cases hp <;> omega

theorem resolveLanding_big (s : Int) (hbig : 99 ≤ s) : resolveLanding s = s := by
  unfold resolveLanding
  rw [LADDERS_lookup_big s hbig, SNAKES_lookup_big s hbig]

theorem resolveLanding_idem (s : Int) (h1 : 1 ≤ s) (h2 : s ≤ 100) :
    resolveLanding (resolveLanding s) = resolveLanding s := by
  interval_cases s <;> exact (by decide)

theorem processSingleMessage_moveComplete_ne (st : GameState) (pIdx : Nat) (P : Int) (mc : Nat)
    (hnotme : pIdx ≠ st.myPlayerIndex) (hne : getIdx st.positions pIdx ≠ P) :
    processSingleMessage (GameMsg.moveComplete pIdx P mc) st =
      animateTokenMove pIdx (getIdx st.positions pIdx) P true
        { st with moveCount := setCount st.moveCount pIdx mc, moving := true } := by
  have h1 : (pIdx != st.myPlayerIndex) = true := by simp [hnotme]
  have h2 : (getIdx st.positions pIdx != P) = true := by simp [hne]
  simp only [processSingleMessage, h1, h2, if_true]

theorem processSingleMessage_moveComplete_eq (st : GameState) (pIdx : Nat) (P : Int) (mc : Nat)
    (hnotme : pIdx ≠ st.myPlayerIndex) (heq : getIdx st.positions pIdx = P) :
    processSingleMessage (GameMsg.moveComplete pIdx P mc) st =
      ({ st with
          moveCount := setCount st.moveCount pIdx mc
          positions := setIdx st.positions pIdx P }, []) := by
  have h1 : (pIdx != st.myPlayerIndex) = true := by simp [hnotme]
  have h2 : (getIdx st.positions pIdx != P) = false := by simp [heq]
  simp only [processSingleMessage, h1, h2, if_true, Bool.false_eq_true, if_false]

/-- Claim C5 counterexample: from a rolled-but-unconsumed dice of 3, a second
roll attempt with outcome 5 is not rejected — the stored dice value changes
from 3 to 5. -/
theorem second_roll_not_rejected :
    ((rollDice 3 stBeforeRoll).1).diceValue = 3 ∧
    ((rollDice 5 (rollDice 3 stBeforeRoll).1).1).diceValue = 5 ∧ (5 : Int) ≠ 3 := by
  exact ⟨by decide, by decide, by decide⟩

/-- Claim C5 amended: after a completed roll and before the move, a second
roll attempt by the same player is accepted by `roll_dice` (whose guards test
only game-over, mid-move, mid-roll and turn ownership, never an unconsumed
dice value): the stored dice value is overwritten with the new outcome while
positions, current player and turn ownership are unchanged, and the state
stays in the waiting-for-move shape. Only the roll animation (`dice_rolling`),
a move in progress (`moving`), or the still-disabled roll button in the UI
prevent a double roll. -/
theorem second_roll_overwrites (st : GameState) (d2 : Int)
    (hgo : st.gameOver = false) (hmv : st.moving = false) (hdr : st.diceRolling = false)
    (hmode : st.mode = Mode.multiplayer) (hmt : st.myTurn = true) :
    ((rollDice d2 st).1).diceValue = d2 ∧
    ((rollDice d2 st).1).positions = st.positions ∧
    ((rollDice d2 st).1).currentPlayer = st.currentPlayer ∧
    ((rollDice d2 st).1).myTurn = st.myTurn ∧
    ((rollDice d2 st).1).moving = false ∧
    ((rollDice d2 st).1).diceRolling = false := by
  unfold rollDice
  have h1 : (st.gameOver || st.moving || st.diceRolling) = false := by simp [hgo, hmv, hdr]
  have h2 : (st.mode == Mode.multiplayer && !st.myTurn) = false := by simp [hmode, hmt]
  have h3 : (st.mode == Mode.solo && st.currentPlayer != 0) = false := by simp [hmode]
  simp [h1, h2, h3, hgo, hmv, hdr, hmt]

/-- Claim C5 witness for the amended statement: a second roll of 5 over an
unconsumed 3. -/
theorem second_roll_overwrites_witness :
    ((rollDice 5 (rollDice 3 stBeforeRoll).1).1).diceValue = 5 ∧
    ((rollDice 5 (rollDice 3 stBeforeRoll).1).1).positions = ((rollDice 3 stBeforeRoll).1).positions ∧
    ((rollDice 5 (rollDice 3 stBeforeRoll).1).1).currentPlayer = ((rollDice 3 stBeforeRoll).1).currentPlayer ∧
    ((rollDice 5 (rollDice 3 stBeforeRoll).1).1).myTurn = ((rollDice 3 stBeforeRoll).1).myTurn ∧
    ((rollDice 5 (rollDice 3 stBeforeRoll).1).1).moving = false ∧
    ((rollDice 5 (rollDice 3 stBeforeRoll).1).1).diceRolling = false :=
  second_roll_overwrites (rollDice 3 stBeforeRoll).1 5 rfl rfl rfl rfl rfl

/-- Claim C10 counterexample: a remote `move_complete` claiming position 16
for the opponent (at 0) leaves the opponent recorded at 6, not 16 — the
receiver re-applies the snake at 16, so the recorded position is not always
the claimed `P`. -/
theorem remote_move_position_not_P :
    getIdx ((processSingleMessage (GameMsg.moveComplete 0 16 1) peerAtStart).1).positions 0 = 6 ∧
    (6 : Int) ≠ 16 := by
  exact ⟨by decide, by decide⟩

/-- Claim C10 amended: a remote `move_complete` targeting the opponent is
applied with no validation against the pending dice value or board rules,
but the receiver runs the received position through the landing resolution
once more: for any integer P strictly ahead of the opponent's recorded
position, the recorded position becomes `resolveLanding P` (equal to P
whenever P is not itself a snake head or ladder bottom), and whenever
P ≥ 100 the local game immediately ends with the opponent declared winner. -/
theorem remote_move_applied_unvalidated (st : GameState) (pIdx : Nat) (P : Int) (mc : Nat)
    (hnotme : pIdx ≠ st.myPlayerIndex)
    (hlt : getIdx st.positions pIdx < P) :
    getIdx ((processSingleMessage (GameMsg.moveComplete pIdx P mc) st).1).positions pIdx =
      resolveLanding P ∧
    (100 ≤ P →
      ((processSingleMessage (GameMsg.moveComplete pIdx P mc) st).1).gameOver = true ∧
      ((processSingleMessage (GameMsg.moveComplete pIdx P mc) st).1).winner = some pIdx) := by
  rw [processSingleMessage_moveComplete_ne st pIdx P mc hnotme (by omega)]
  have hpos : getIdx ({ st with
      moveCount := setCount st.moveCount pIdx mc, moving := true } : GameState).positions pIdx
      = getIdx st.positions pIdx := rfl
  rw [animateTokenMove_eq pIdx _ P true _ (by rw [hpos]; omega)]
  constructor
  · rw [completeMove_fst_positions]
    exact getIdx_setIdx_same _ _ _
  · intro h100
    have hres : resolveLanding P = P := resolveLanding_big P (by omega)
    rw [hres]
    exact completeMove_ge100 pIdx P true _ h100

/-- Claim C10 witness for the amended statement: an injected position 150
(never reachable by the board rules) is applied as-is and ends the game with
the opponent declared winner. -/
theorem remote_move_applied_unvalidated_witness :
    (getIdx ((processSingleMessage (GameMsg.moveComplete 0 150 7) peerAtStart).1).positions 0 =
      resolveLanding 150 ∧
     (100 ≤ (150 : Int) →
       ((processSingleMessage (GameMsg.moveComplete 0 150 7) peerAtStart).1).gameOver = true ∧
       ((processSingleMessage (GameMsg.moveComplete 0 150 7) peerAtStart).1).winner = some 0)) :=
  remote_move_applied_unvalidated peerAtStart 0 150 7 (by decide) (by decide)

/-- Claim C4 counterexample: host at 15 rolls 1, hits the snake 16 → 6 and
sends `move_complete` with position 6; the relay forwards it unmodified, but
the synced peer (also recording 15 for the host) applies it and keeps the
host at 15 — the round-trip loses the snake move. -/
theorem relay_roundtrip_snake_desync :
    (tryMoveToken 0 baseState).2 = [GameMsg.moveComplete 0 6 1, GameMsg.turnChange 1] ∧
    getIdx (tryMoveToken 0 baseState).1.positions 0 = 6 ∧
    relayGameMessage 1 "abc12345" (GameMsg.moveComplete 0 6 1) readyServer =
      (readyServer, [(2, ServerMsg.gameMessage (GameMsg.moveComplete 0 6 1))]) ∧
    getIdx ((processSingleMessage (GameMsg.moveComplete 0 6 1) peerState).1).positions 0 = 15 ∧
    (15 : Int) ≠ 6 := by
  refine ⟨by decide, by decide, by decide, by decide, by decide⟩

/-- Claim C4 amended: the relay does forward the game-action payload
unmodified to the counterpart connection without touching the registry, and
the round-trip preserves the mover's position for plain and ladder moves —
whenever the relayed final position (a resolved landing of a square 1–100)
is at or ahead of the position the peer has recorded for the mover — but a
snake move, whose final position lies behind the recorded one, leaves the
peer's recorded position unchanged instead of syncing it. -/
theorem relay_roundtrip_forward (conn g : Nat) (sid : String) (s : Session) (m : GameMsg)
    (sv : ServerState)
    (hfind : sv.sessions.lookup sid = some s) (hhost : s.host = conn)
    (hguest : s.guest = some g) (hg : sv.clients.contains g = true) :
    relayGameMessage conn sid m sv = (sv, [(g, ServerMsg.gameMessage m)]) ∧
    (∀ (st : GameState) (pIdx : Nat) (raw P : Int) (mc : Nat),
      pIdx ≠ st.myPlayerIndex → 1 ≤ raw → raw ≤ 100 → P = resolveLanding raw →
      getIdx st.positions pIdx ≤ P →
      getIdx ((processSingleMessage (GameMsg.moveComplete pIdx P mc) st).1).positions pIdx = P) := by
  constructor
  · simp only [relayGameMessage, hfind]
    simp [hhost, hguest]
    simpa using hg
  · intro st pIdx raw P mc hnotme h1 h2 hP hold
    rcases eq_or_lt_of_le hold with heq | hlt
    · rw [processSingleMessage_moveComplete_eq st pIdx P mc hnotme heq]
      exact getIdx_setIdx_same _ _ _
    · rw [processSingleMessage_moveComplete_ne st pIdx P mc hnotme (by omega)]
      rw [animateTokenMove_eq pIdx _ P true _ hlt]
      rw [completeMove_fst_positions, getIdx_setIdx_same]
      rw [hP]
      exact resolveLanding_idem raw h1 h2

/-- Claim C4 witness for the amended statement: the relay delivers the
payload unmodified to the guest, and a ladder move (raw 4 → 14) round-trips:
the peer records 14 for the mover. -/
theorem relay_roundtrip_forward_witness :
    (relayGameMessage 1 "abc12345" (GameMsg.moveComplete 0 14 1) readyServer =
      (readyServer, [(2, ServerMsg.gameMessage (GameMsg.moveComplete 0 14 1))]) ∧
     getIdx ((processSingleMessage (GameMsg.moveComplete 0 14 1) peerAtStart).1).positions 0
       = 14) := by
  have h := relay_roundtrip_forward 1 2 "abc12345" readySession
    (GameMsg.moveComplete 0 14 1) readyServer (by decide) (by decide) (by decide) (by decide)
  exact ⟨h.1, h.2 peerAtStart 0 4 14 1 (by decide) (by decide) (by decide) (by decide) (by decide)⟩

/-- Claim C6: joining with an invite code that matches no live session sends
a Session-not-found error and leaves the registry untouched; joining a
session whose guest slot is already taken sends a Session-is-full error and
leaves the registry — including the original guest connection and info —
untouched. In both cases the error goes only to the joiner. -/
theorem join_session_errors (conn : Nat) (code name avatar : String) (sv : ServerState) :
    ((sv.sessions.find? fun p => upperString (p.1.take 8) == upperString code) = none →
      joinSession conn code name avatar sv =
        (sv, [(conn, ServerMsg.errorMsg "Session not found")])) ∧
    (∀ sid s,
      (sv.sessions.find? fun p => upperString (p.1.take 8) == upperString code) = some (sid, s) →
      sid ≠ "" → s.guest.isSome = true →
      joinSession conn code name avatar sv =
        (sv, [(conn, ServerMsg.errorMsg "Session is full")])) := by
  constructor
  · intro h
    simp only [joinSession, h]
  · intro sid s h hsid hguest
    have hsid' : (sid == "") = false := by simp [hsid]
    simp only [joinSession, h, hsid', hguest, Bool.false_eq_true, if_false, if_true]

/-- Claim C6 witness: against a registry holding one ready session under
invite code ABC12345, an unknown code is rejected with Session-not-found and
a second guest is rejected with Session-is-full, the registry unchanged. -/
theorem join_session_errors_witness :
    joinSession 3 "zzzz9999" "Bob" "😎" readyServer =
      (readyServer, [(3, ServerMsg.errorMsg "Session not found")]) ∧
    joinSession 3 "abc12345" "Bob" "😎" readyServer =
      (readyServer, [(3, ServerMsg.errorMsg "Session is full")]) :=
  ⟨(join_session_errors 3 "zzzz9999" "Bob" "😎" readyServer).1 (by decide),
   (join_session_errors 3 "abc12345" "Bob" "😎" readyServer).2 "abc12345" readySession
     (by decide) (by decide) (by decide)⟩

theorem insertSession_fresh (sid : String) (s : Session) (l : List (String × Session))
    (h : ∀ p ∈ l, p.1 ≠ sid) : insertSession sid s l = l ++ [(sid, s)] := by
  induction l with
  | nil => rfl
  | cons p t ih =>
    have hp : (p.1 == sid) = false := by simp [h p (by simp)]
    simp only [insertSession, hp, Bool.false_eq_true, if_false, List.cons_append]
    rw [ih fun q hq => h q (by simp [hq])]

/-- Claim C9 counterexample: calling `create_session` twice on the same
connection does not replace the first session — the registry then holds two
live sessions both hosted by that connection, violating the claimed
at-most-one-session-per-host invariant. -/
theorem create_session_duplicates_host :
    ((createSession "bbbb2222" 1 "A" "x" (createSession "aaaa1111" 1 "A" "x" emptyServer).1).1).sessions =
      [("aaaa1111", freshSession 1 "A" "x"), ("bbbb2222", freshSession 1 "A" "x")] ∧
    (((createSession "bbbb2222" 1 "A" "x" (createSession "aaaa1111" 1 "A" "x" emptyServer).1).1).sessions.filter
        fun p => p.2.host == 1).length = 2 := by
  exact ⟨by decide, by decide⟩

/-- Claim C9 amended: `create_session` always registers a brand-new session
under a fresh session id, appended to the registry; a prior session hosted by
the same connection is neither replaced nor removed, so a connection may host
several live sessions at once (they disappear only at disconnect teardown). -/
theorem create_session_appends (sid : String) (conn : Nat) (name avatar : String)
    (sv : ServerState) (hfresh : ∀ p ∈ sv.sessions, p.1 ≠ sid) :
    (createSession sid conn name avatar sv).1.sessions =
      sv.sessions ++ [(sid, freshSession conn name avatar)] ∧
    (createSession sid conn name avatar sv).2 =
      [(conn, ServerMsg.sessionCreated sid (upperString (sid.take 8)))] :=
  ⟨insertSession_fresh sid (freshSession conn name avatar) sv.sessions hfresh, rfl⟩

/-- Claim C9 witness for the amended statement: two consecutive creations on
connection 1 both append. -/
theorem create_session_appends_witness :
    ((createSession "bbbb2222" 1 "A" "x" (createSession "aaaa1111" 1 "A" "x" emptyServer).1).1).sessions =
      ((createSession "aaaa1111" 1 "A" "x" emptyServer).1).sessions ++
        [("bbbb2222", freshSession 1 "A" "x")] ∧
    (createSession "bbbb2222" 1 "A" "x" (createSession "aaaa1111" 1 "A" "x" emptyServer).1).2 =
      [(1, ServerMsg.sessionCreated "bbbb2222" (upperString ("bbbb2222".take 8)))] :=
  create_session_appends "bbbb2222" 1 "A" "x" (createSession "aaaa1111" 1 "A" "x" emptyServer).1
    (by intro p hp; fin_cases hp; decide)

theorem assoc_key_unique {l : List (String × Session)} (h : (l.map Prod.fst).Nodup)
    {a : String} {b c : Session} (h1 : (a, b) ∈ l) (h2 : (a, c) ∈ l) : b = c := by
  induction l with
  | nil => cases h1
  | cons p t ih =>
    simp only [List.map_cons, List.nodup_cons] at h
    rcases List.mem_cons.mp h1 with e1 | m1
    · rcases List.mem_cons.mp h2 with e2 | m2
      · rw [← e1] at e2
        exact (Prod.mk.injEq a b a c).mp e2.symm |>.2
      · exfalso
        apply h.1
        have hm := List.mem_map_of_mem Prod.fst m2
        rw [← e1]
        exact hm
    · rcases List.mem_cons.mp h2 with e2 | m2
      · exfalso
        apply h.1
        have hm := List.mem_map_of_mem Prod.fst m1
        rw [← e2]
        exact hm
      · exact ih h.2 m1 m2

/-- Claim C7: when a connection of a ready session disconnects, the surviving
peer receives exactly one `player_disconnected` notification and the session
is removed, so a subsequent join by its invite code yields Session-not-found;
running the teardown a second time for the same connection is a no-op. -/
theorem teardown_notifies_once_and_removes (c g : Nat) (sid : String) (s : Session)
    (sv : ServerState)
    (haff : sv.sessions.filter (involves c) = [(sid, s)])
    (hother : (if s.host == c then s.guest else some s.host) = some g)
    (hg : ((sv.clients.erase c).contains g) = true)
    (hnodup : sv.clients.Nodup)
    (hkeys : (sv.sessions.map Prod.fst).Nodup)
    (huniq : ∀ p ∈ sv.sessions, upperString (p.1.take 8) = upperString (sid.take 8) → p.1 = sid)
    (conn2 : Nat) (code name avatar : String)
    (hcode : upperString code = upperString (sid.take 8)) :
    (unregisterClient c sv).2 = [(g, ServerMsg.playerDisconnected sid)] ∧
    joinSession conn2 code name avatar (unregisterClient c sv).1 =
      ((unregisterClient c sv).1, [(conn2, ServerMsg.errorMsg "Session not found")]) ∧
    unregisterClient c (unregisterClient c sv).1 = ((unregisterClient c sv).1, []) := by
  have hmem2 : (sid, s) ∈ sv.sessions ∧ involves c (sid, s) = true := by
    have hin : (sid, s) ∈ sv.sessions.filter (involves c) := by
      rw [haff]; exact List.mem_singleton_self (sid, s)
    exact List.mem_filter.mp hin
  refine ⟨?_, ?_, ?_⟩
  · simp only [unregisterClient, haff, List.filterMap_cons, List.filterMap_nil, hother, hg,
      if_true]
  · have hfind : (((sv.sessions.filter fun p => !(involves c p)).find?
        fun p => upperString (p.1.take 8) == upperString code) = none) := by
      rw [List.find?_eq_none]
      intro x hx hbeq
      have hmem := (List.mem_filter.mp hx).1
      have hninv := (List.mem_filter.mp hx).2
      have hxeq : upperString (x.1.take 8) = upperString code := eq_of_beq hbeq
      have hxs : x.1 = sid := huniq x hmem (hxeq.trans hcode)
      have hx1 : (sid, x.2) ∈ sv.sessions := by
        have hx0 : (x.1, x.2) ∈ sv.sessions := hmem
        rwa [hxs] at hx0
      have hx2 : x.2 = s := assoc_key_unique hkeys hx1 hmem2.1
      have : involves c x = true := by
        unfold involves at hmem2 ⊢
        rw [hx2]
        exact hmem2.2
      rw [this] at hninv
      exact Bool.false_ne_true hninv
    simp only [joinSession, unregisterClient, hfind]
  · have hcer : (sv.clients.erase c).erase c = sv.clients.erase c :=
      List.erase_of_not_mem fun hmem =>
        ((List.Nodup.mem_erase_iff hnodup).mp hmem).1 rfl
    have hfilt : ((sv.sessions.filter fun p => !(involves c p)).filter (involves c)) = [] := by
      rw [List.filter_eq_nil_iff]
      intro a ha hinv
      have h2 := (List.mem_filter.mp ha).2
      rw [hinv] at h2
      exact absurd h2 (by decide)
    have hfilt2 : ((sv.sessions.filter fun p => !(involves c p)).filter
        fun p => !(involves c p)) = sv.sessions.filter fun p => !(involves c p) := by
      rw [List.filter_eq_self]
      intro a ha
      exact (List.mem_filter.mp ha).2
    simp only [unregisterClient, hcer, hfilt, hfilt2, List.filterMap_nil]

/-- Claim C7 witness: host connection 1 of the ready session disconnects;
guest 2 gets the single notification, a rejoin by the invite code fails, and
a second teardown is a no-op. -/
theorem teardown_notifies_once_and_removes_witness :
    (unregisterClient 1 readyServer).2 = [(2, ServerMsg.playerDisconnected "abc12345")] ∧
    joinSession 3 "abc12345" "Bob" "😎" (unregisterClient 1 readyServer).1 =
      ((unregisterClient 1 readyServer).1, [(3, ServerMsg.errorMsg "Session not found")]) ∧
    unregisterClient 1 (unregisterClient 1 readyServer).1 =
      ((unregisterClient 1 readyServer).1, []) :=
  teardown_notifies_once_and_removes 1 2 "abc12345" readySession readyServer
    (by decide) (by decide) (by decide) (by decide) (by decide)
    (by intro p hp; fin_cases hp; intro _; rfl)
    3 "abc12345" "Bob" "😎" (by decide)

end SlideToGlory
